import Mathlib

/-!
Shallow embedding of the scheduling/consistency validation logic of the
wellspring-health backend (FastAPI + SQLAlchemy), covering:

* `app/routers/staff_assignments.py` (assign_staff, update_staff_assignment),
* `app/routers/appointments.py` (create_appointment, update_appointment,
  delete_appointment),
* `app/routers/notes.py` (create_note, update_note),
* the `StaffAssignmentCreate` pydantic validators of `app/schemas.py`.

Dates (`sqlalchemy.Date`) are embedded as integers in yyyymmdd form, which
preserves the order of calendar dates; datetimes are embedded as a wall-clock
integer together with an optional timezone offset, mirroring Python naive vs
aware `datetime` objects.  Nullable columns and optional request fields are
`Option`s.  Entity records carry exactly the columns the embedded handlers
read or write; the relational store is a record of lists with an autoincrement
counter for primary keys.
-/

/-- SQL three-valued comparison `a <= b` used in WHERE clauses: a comparison
with NULL is not satisfied (the row is filtered out). -/
def sqlLe (a b : Option Int) : Bool :=
  match a, b with
  | some x, some y => decide (x ≤ y)
  | _, _ => false

/-- SQLAlchemy `Result.scalar_one_or_none()`: `none` for zero rows, the row for
exactly one, and a raised `MultipleResultsFound` (modelled as `Except.error`)
for two or more rows. -/
def scalar_one_or_none (l : List α) : Except Unit (Option α) :=
  match l with
  | [] => .ok none
  | [a] => .ok (some a)
  | _ => .error ()

/-- Python truthiness of an `Optional[int]`: `None` and `0` are falsy. -/
def pyTruthy (o : Option Int) : Bool :=
  match o with
  | none => false
  | some n => n != 0

/-- Python `datetime`: a wall-clock value (total order on naive datetimes)
plus an optional timezone offset (`none` = naive, `some o` = aware with
offset `o`). -/
structure PyDateTime where
  wall : Int
  off : Option Int
deriving Repr, DecidableEq

/-- `dt.replace(tzinfo=timezone.utc)` applied only when the datetime is naive,
as in `create_appointment`. -/
def withUtcIfNaive (d : PyDateTime) : PyDateTime :=
  match d.off with
  | none => { d with off := some 0 }
  | some _ => d

/-- Absolute instant of an aware datetime (wall clock minus offset). -/
def instant (d : PyDateTime) : Int :=
  d.wall - d.off.getD 0

/-- Python `a >= b` on `Optional[datetime]` values: `none` when the comparison
raises `TypeError` (an operand is `None`, or naive is mixed with aware),
otherwise the boolean result.  Aware datetimes compare as instants, naive
ones by wall clock. -/
def pyGeDT (a b : Option PyDateTime) : Option Bool :=
  match a, b with
  | some x, some y =>
    match x.off, y.off with
    | none, none => some (decide (y.wall ≤ x.wall))
    | some ox, some oy => some (decide (y.wall - oy ≤ x.wall - ox))
    | _, _ => none
  | _, _ => none

/-- Row of `clients` (`app/models.py`, class Client); only the primary key is
read by the embedded handlers. -/
structure Client where
  id : Int
deriving Repr, DecidableEq

/-- Row of `users` (`app/models.py`, class User); the handlers read the
primary key and the nullable `role` column. -/
structure User where
  id : Int
  role : Option String
deriving Repr, DecidableEq

/-- Row of `staff_assignments` (`app/models.py`, class StaffAssignment). -/
structure StaffAssignment where
  id : Int
  client_id : Int
  staff_user_id : Int
  role : Option String
  is_primary : Bool
  start_date : Option Int
  end_date : Option Int
  notes : Option String
deriving Repr, DecidableEq

/-- Row of `appointments` (`app/models.py`, class Appointment); `type`,
`status` and `location` are nullable columns, `client_id`, `provider_id`,
`start_time` and `end_time` are NOT NULL. -/
structure Appointment where
  id : Int
  client_id : Int
  provider_id : Int
  start_time : PyDateTime
  end_time : PyDateTime
  type : Option String
  status : Option String
  location : Option String
deriving Repr, DecidableEq

/-- Row of `progress_notes` (`app/models.py`, class ProgressNote). -/
structure ProgressNote where
  id : Int
  client_id : Int
  provider_id : Int
  appointment_id : Option Int
  note_text : String
  dsm5_code : Option String
  modifiers : Option String
  service_line : Option String
deriving Repr, DecidableEq

/-- The relational store: one list per table plus an autoincrement counter
used for new primary keys. -/
structure Store where
  clients : List Client
  users : List User
  assignments : List StaffAssignment
  appointments : List Appointment
  notes : List ProgressNote
  nextId : Int
deriving Repr, DecidableEq

/-- Autoincrement primary keys are positive and the store is the image of the
CRUD handlers, so every appointment id is positive.  `create_note` relies on
this because Python treats `appointment_id == 0` as falsy. -/
def Store.wfApptIds (s : Store) : Prop :=
  ∀ a ∈ s.appointments, 0 < a.id

/-- SELECT of a client by primary key (`db.get` / `scalar_one_or_none`). -/
def findClient (s : Store) (i : Int) : Option Client :=
  s.clients.find? (fun c => c.id == i)

/-- SELECT of a user by primary key. -/
def findUser (s : Store) (i : Int) : Option User :=
  s.users.find? (fun u => u.id == i)

/-- SELECT of an appointment by primary key. -/
def findAppointment (s : Store) (i : Int) : Option Appointment :=
  s.appointments.find? (fun a => a.id == i)

/-- SELECT of a staff assignment by primary key. -/
def findAssignment (s : Store) (i : Int) : Option StaffAssignment :=
  s.assignments.find? (fun a => a.id == i)

/-- SELECT of a progress note by primary key. -/
def findNote (s : Store) (i : Int) : Option ProgressNote :=
  s.notes.find? (fun n => n.id == i)

/-- Request body `StaffAssignmentCreate` (`app/schemas.py`); used by both the
create and the update endpoint. -/
structure StaffAssignmentCreate where
  client_id : Int
  staff_user_id : Int
  role : Option String
  is_primary : Bool
  start_date : Option Int
  end_date : Option Int
  notes : Option String
deriving Repr, DecidableEq

/-- WHERE clause of the overlap query in `assign_staff`: same
(client_id, staff_user_id) pair and
`existing.start_date <= new.end_date AND existing.end_date >= new.start_date`
with SQL NULL semantics. -/
def overlapRow (a : StaffAssignment) (r : StaffAssignmentCreate) : Bool :=
  a.client_id == r.client_id && a.staff_user_id == r.staff_user_id &&
    sqlLe a.start_date r.end_date && sqlLe r.start_date a.end_date

/-- Outcome of `assign_staff`.  `multipleResults` is the unhandled
`MultipleResultsFound` raised by `scalar_one_or_none()` when the overlap query
returns two or more rows (the handler has no try/except, so it surfaces as an
unhandled 500, not as the 409 conflict response). -/
inductive AssignOutcome where
  | clientNotFound
  | staffNotFound
  | roleMismatch
  | conflict
  | multipleResults
  | created (a : StaffAssignment)
deriving Repr, DecidableEq

/-- True exactly on the success outcome of `assign_staff`. -/
def AssignOutcome.isCreated : AssignOutcome → Bool
  | .created _ => true
  | _ => false

/-- POST handler `assign_staff` of `app/routers/staff_assignments.py`:
client lookup, staff lookup, role comparison, overlap query via
`scalar_one_or_none`, then insert and commit.  Returns the outcome and the
store after the request. -/
def assign_staff (s : Store) (r : StaffAssignmentCreate) :
    AssignOutcome × Store :=
  match findClient s r.client_id with
  | none => (.clientNotFound, s)
  | some _ =>
    match findUser s r.staff_user_id with
    | none => (.staffNotFound, s)
    | some staff =>
      if staff.role != r.role then (.roleMismatch, s)
      else
        match scalar_one_or_none (s.assignments.filter (fun a => overlapRow a r)) with
        | .error _ => (.multipleResults, s)
        | .ok (some _) => (.conflict, s)
        | .ok none =>
          let a : StaffAssignment :=
            { id := s.nextId, client_id := r.client_id,
              staff_user_id := r.staff_user_id, role := r.role,
              is_primary := r.is_primary, start_date := r.start_date,
              end_date := r.end_date, notes := r.notes }
          (.created a,
            { s with assignments := s.assignments ++ [a], nextId := s.nextId + 1 })

/-- Outcome of `update_staff_assignment`.  The handler performs no role
comparison, so there is no role-mismatch outcome. -/
inductive UpdateAssignOutcome where
  | assignmentNotFound
  | clientNotFound
  | staffNotFound
  | conflict
  | multipleResults
  | updated (a : StaffAssignment)
deriving Repr, DecidableEq

/-- True exactly on the success outcome of `update_staff_assignment`. -/
def UpdateAssignOutcome.isUpdated : UpdateAssignOutcome → Bool
  | .updated _ => true
  | _ => false

/-- Field-by-field `setattr` loop of `update_staff_assignment`: every field of
the request body overwrites the stored row (the primary key is untouched). -/
def applyAssignment (a : StaffAssignment) (r : StaffAssignmentCreate) :
    StaffAssignment :=
  { a with
    client_id := r.client_id,
    staff_user_id := r.staff_user_id,
    role := r.role,
    is_primary := r.is_primary,
    start_date := r.start_date,
    end_date := r.end_date,
    notes := r.notes }

/-- PUT handler `update_staff_assignment` of
`app/routers/staff_assignments.py`: assignment lookup, client lookup, staff
lookup (no role comparison), overlap query excluding the updated row by id,
then the `setattr` loop and commit. -/
def update_staff_assignment (s : Store) (aid : Int)
    (r : StaffAssignmentCreate) : UpdateAssignOutcome × Store :=
  match findAssignment s aid with
  | none => (.assignmentNotFound, s)
  | some asg =>
    match findClient s r.client_id with
    | none => (.clientNotFound, s)
    | some _ =>
      match findUser s r.staff_user_id with
      | none => (.staffNotFound, s)
      | some _ =>
        match scalar_one_or_none
            (s.assignments.filter (fun a => a.id != aid && overlapRow a r)) with
        | .error _ => (.multipleResults, s)
        | .ok (some _) => (.conflict, s)
        | .ok none =>
          let a' := applyAssignment asg r
          (.updated a',
            { s with assignments :=
                s.assignments.map (fun a => if a.id == aid then a' else a) })

/-- Field validators of the FIRST `StaffAssignmentCreate` class in
`app/schemas.py` (lines 420-435): raise `ValueError` when both dates are
present and `end_date < start_date`, or when `start_date` is present and
before today.  Returns `true` when validation passes.  The second class
definition of the same name (line 437, body `pass`) shadows this one, so at
runtime these validators are dead code. -/
def staffAssignmentCreateValidators (today : Int) (r : StaffAssignmentCreate) :
    Bool :=
  (match r.start_date, r.end_date with
   | some sd, some ed => decide (sd ≤ ed)
   | _, _ => true) &&
  (match r.start_date with
   | some sd => decide (today ≤ sd)
   | none => true)

/-- Request body `AppointmentCreate` (`app/schemas.py`): all identity and time
fields are required; `type` and `status` have string defaults applied by
pydantic, `location` is optional. -/
structure AppointmentCreate where
  client_id : Int
  provider_id : Int
  start_time : PyDateTime
  end_time : PyDateTime
  type : String
  status : String
  location : Option String
deriving Repr, DecidableEq

/-- Outcome of `create_appointment`.  `clientNotFound` / `providerNotFound`
are the `HTTPException`s raised by `validate_client_provider`
(`app/validators/appointment.py`); the handler's catch-all `except Exception`
turns them into a 500 response. -/
inductive CreateApptOutcome where
  | invalidRange
  | clientNotFound
  | providerNotFound
  | created (a : Appointment)
deriving Repr, DecidableEq

/-- True exactly on the success outcome of `create_appointment`. -/
def CreateApptOutcome.isCreated : CreateApptOutcome → Bool
  | .created _ => true
  | _ => false

/-- POST handler `create_appointment` of `app/routers/appointments.py`:
naive datetimes get `tzinfo=timezone.utc`, then the window check
`start_time >= end_time`, then `validate_client_provider`, then insert and
commit (the normalised datetimes are the ones persisted). -/
def create_appointment (s : Store) (r : AppointmentCreate) :
    CreateApptOutcome × Store :=
  let st := withUtcIfNaive r.start_time
  let en := withUtcIfNaive r.end_time
  if instant en ≤ instant st then (.invalidRange, s)
  else
    match findClient s r.client_id with
    | none => (.clientNotFound, s)
    | some _ =>
      match findUser s r.provider_id with
      | none => (.providerNotFound, s)
      | some _ =>
        let a : Appointment :=
          { id := s.nextId, client_id := r.client_id,
            provider_id := r.provider_id, start_time := st, end_time := en,
            type := some r.type, status := some r.status,
            location := r.location }
        (.created a,
          { s with appointments := s.appointments ++ [a], nextId := s.nextId + 1 })

/-- Request body `AppointmentUpdate` (`app/schemas.py`): every field is
optional.  The outer `Option` is pydantic field-presence (`none` = the patch
omits the field, excluded by `model_dump(exclude_unset=True)`); the inner
`Option` is an explicit JSON null. -/
structure AppointmentUpdate where
  client_id : Option (Option Int)
  provider_id : Option (Option Int)
  start_time : Option (Option PyDateTime)
  end_time : Option (Option PyDateTime)
  type : Option (Option String)
  status : Option (Option String)
  location : Option (Option String)
deriving Repr, DecidableEq

/-- Whether `model_dump(exclude_unset=True)` is non-empty. -/
def AppointmentUpdate.hasSetField (p : AppointmentUpdate) : Bool :=
  p.client_id.isSome || p.provider_id.isSome || p.start_time.isSome ||
    p.end_time.isSome || p.type.isSome || p.status.isSome || p.location.isSome

/-- Attribute value of a patch field as the handler reads it
(`appointment_in.start_time`): `None` both when the field is unset and when it
is an explicit null. -/
def patchVal (f : Option (Option α)) : Option α :=
  f.getD none

/-- Outcome of `update_appointment`.  `raisedTypeError` is the unhandled
`TypeError` from the unconditional `start_time >= end_time` comparison when
either operand is `None` (or naive is compared with aware);
`integrityError` stands for the commit failing after the `setattr` loop wrote
NULL into the NOT NULL `client_id`/`provider_id` column. -/
inductive UpdateApptOutcome where
  | notFound
  | noFields
  | raisedTypeError
  | invalidRange
  | clientNotFound
  | providerNotFound
  | integrityError
  | updated (a : Appointment)
deriving Repr, DecidableEq

/-- True exactly on the success outcome of `update_appointment`. -/
def UpdateApptOutcome.isUpdated : UpdateApptOutcome → Bool
  | .updated _ => true
  | _ => false

/-- Field-by-field `setattr` loop of `update_appointment` over
`model_dump(exclude_unset=True)`: set fields overwrite the stored row; `none`
is returned when a NULL would be written into a NOT NULL identity column, in
which case the commit raises instead of persisting. -/
def applyApptPatch (a : Appointment) (p : AppointmentUpdate) :
    Option Appointment :=
  match p.client_id.getD (some a.client_id), p.provider_id.getD (some a.provider_id) with
  | some cid, some pid =>
    some { a with
      client_id := cid,
      provider_id := pid,
      start_time := (p.start_time.getD (some a.start_time)).getD a.start_time,
      end_time := (p.end_time.getD (some a.end_time)).getD a.end_time,
      type := p.type.getD a.type,
      status := p.status.getD a.status,
      location := p.location.getD a.location }
  | _, _ => none

/-- PUT handler `update_appointment` of `app/routers/appointments.py`:
appointment lookup, empty-patch guard, unconditional
`start_time >= end_time` comparison on the raw patch attributes,
`validate_client_provider` on `update_data.get(...)`, then the `setattr`
loop and commit. -/
def update_appointment (s : Store) (aid : Int) (p : AppointmentUpdate) :
    UpdateApptOutcome × Store :=
  match findAppointment s aid with
  | none => (.notFound, s)
  | some ap =>
    if !p.hasSetField then (.noFields, s)
    else
      match pyGeDT (patchVal p.start_time) (patchVal p.end_time) with
      | none => (.raisedTypeError, s)
      | some true => (.invalidRange, s)
      | some false =>
        if (patchVal p.client_id).isSome &&
            (findClient s ((patchVal p.client_id).getD 0)).isNone then
          (.clientNotFound, s)
        else if (patchVal p.provider_id).isSome &&
            (findUser s ((patchVal p.provider_id).getD 0)).isNone then
          (.providerNotFound, s)
        else
          match applyApptPatch ap p with
          | none => (.integrityError, s)
          | some a' =>
            (.updated a',
              { s with appointments :=
                  s.appointments.map (fun a => if a.id == aid then a' else a) })

/-- Outcome of `delete_appointment`. -/
inductive DeleteApptOutcome where
  | notFound
  | completedBlocked
  | deleted
deriving Repr, DecidableEq

/-- DELETE handler `delete_appointment` of `app/routers/appointments.py`:
appointment lookup, refusal when `status == "completed"`, otherwise delete
and commit. -/
def delete_appointment (s : Store) (aid : Int) : DeleteApptOutcome × Store :=
  match findAppointment s aid with
  | none => (.notFound, s)
  | some ap =>
    if ap.status == some "completed" then (.completedBlocked, s)
    else
      (.deleted,
        { s with appointments := s.appointments.filter (fun a => !(a.id == aid)) })

/-- Request body `ProgressNoteCreate` (`app/schemas.py`). -/
structure ProgressNoteCreate where
  client_id : Int
  provider_id : Int
  appointment_id : Option Int
  note_text : String
  dsm5_code : Option String
  modifiers : Option String
  service_line : Option String
deriving Repr, DecidableEq

/-- Outcome of `create_note`.  `clientMismatch` and `providerMismatch` are the
two 400 responses for a linked appointment whose identities differ from the
note (the InconsistentLinkError cases of the specification). -/
inductive CreateNoteOutcome where
  | clientNotFound
  | providerNotFound
  | appointmentNotFound
  | clientMismatch
  | providerMismatch
  | created (n : ProgressNote)
deriving Repr, DecidableEq

/-- True exactly on the success outcome of `create_note`. -/
def CreateNoteOutcome.isCreated : CreateNoteOutcome → Bool
  | .created _ => true
  | _ => false

/-- True exactly on the two identity-mismatch outcomes of `create_note`. -/
def CreateNoteOutcome.isInconsistentLink : CreateNoteOutcome → Bool
  | .clientMismatch => true
  | .providerMismatch => true
  | _ => false

/-- POST handler `create_note` of `app/routers/notes.py`: client lookup,
provider lookup, then — only when `note_in.appointment_id` is truthy —
appointment lookup and the two identity comparisons, then insert and
commit. -/
def create_note (s : Store) (r : ProgressNoteCreate) :
    CreateNoteOutcome × Store :=
  match findClient s r.client_id with
  | none => (.clientNotFound, s)
  | some _ =>
    match findUser s r.provider_id with
    | none => (.providerNotFound, s)
    | some _ =>
      let insert : CreateNoteOutcome × Store :=
        let n : ProgressNote :=
          { id := s.nextId, client_id := r.client_id,
            provider_id := r.provider_id, appointment_id := r.appointment_id,
            note_text := r.note_text, dsm5_code := r.dsm5_code,
            modifiers := r.modifiers, service_line := r.service_line }
        (.created n,
          { s with notes := s.notes ++ [n], nextId := s.nextId + 1 })
      if pyTruthy r.appointment_id then
        match findAppointment s (r.appointment_id.getD 0) with
        | none => (.appointmentNotFound, s)
        | some ap =>
          if ap.client_id != r.client_id then (.clientMismatch, s)
          else if ap.provider_id != r.provider_id then (.providerMismatch, s)
          else insert
      else insert

/-- Request body `ProgressNoteUpdate` (`app/schemas.py`): only
`appointment_id`, `note_text`, `dsm5_code`, `modifiers` and `service_line`
are patchable (no `client_id`/`provider_id`).  Outer `Option` = field
presence, inner `Option` = explicit JSON null. -/
structure ProgressNoteUpdate where
  appointment_id : Option (Option Int)
  note_text : Option (Option String)
  dsm5_code : Option (Option String)
  modifiers : Option (Option String)
  service_line : Option (Option String)
deriving Repr, DecidableEq

/-- Field-by-field `setattr` loop of `update_note` over
`model_dump(exclude_unset=True)`: set fields overwrite the stored row, with
no consistency check of any kind.  An explicit null `note_text` would write
NULL into a NOT NULL column and make the commit raise instead; every other
patched column is nullable. -/
def applyNotePatch (n : ProgressNote) (p : ProgressNoteUpdate) : ProgressNote :=
  { n with
    appointment_id := p.appointment_id.getD n.appointment_id,
    note_text := (p.note_text.getD (some n.note_text)).getD n.note_text,
    dsm5_code := p.dsm5_code.getD n.dsm5_code,
    modifiers := p.modifiers.getD n.modifiers,
    service_line := p.service_line.getD n.service_line }

/-- Outcome of `update_note`.  `integrityError` stands for the commit failing
after the `setattr` loop wrote NULL into the NOT NULL `note_text` column. -/
inductive UpdateNoteOutcome where
  | notFound
  | integrityError
  | updated (n : ProgressNote)
deriving Repr, DecidableEq

/-- True exactly on the success outcome of `update_note`. -/
def UpdateNoteOutcome.isUpdated : UpdateNoteOutcome → Bool
  | .updated _ => true
  | _ => false

/-- PUT handler `update_note` of `app/routers/notes.py`: note lookup, then
the `setattr` loop and commit.  There is no referential or consistency
validation on this path. -/
def update_note (s : Store) (nid : Int) (p : ProgressNoteUpdate) :
    UpdateNoteOutcome × Store :=
  match findNote s nid with
  | none => (.notFound, s)
  | some n =>
    if p.note_text == some none then (.integrityError, s)
    else
      let n' := applyNotePatch n p
      (.updated n',
        { s with notes := s.notes.map (fun m => if m.id == nid then n' else m) })

/-- Referential-consistency invariant of the specification for one stored
progress note: if the note is linked to an appointment that exists in the
store, the appointment's `client_id` and `provider_id` equal the note's. -/
def noteApptConsistent (s : Store) (n : ProgressNote) : Bool :=
  match n.appointment_id with
  | none => true
  | some aid =>
    match findAppointment s aid with
    | none => true
    | some ap => ap.client_id == n.client_id && ap.provider_id == n.provider_id

/-! Concrete fixtures used by the counterexamples and witnesses below.
Dates are yyyymmdd integers, datetimes carry yyyymmddhhmm wall clocks. -/

/-- A client with id 1. -/
def clientOne : Client := ⟨1⟩

/-- A staff user with id 2 whose persisted role is "provider". -/
def providerUser : User := ⟨2, some "provider"⟩

/-- A staff user with id 2 whose persisted role is "admin". -/
def adminUser : User := ⟨2, some "admin"⟩

/-- Assignment of staff 2 to client 1 over [2025-01-01, 2025-01-05]. -/
def janEarly : StaffAssignment :=
  ⟨10, 1, 2, some "provider", false, some 20250101, some 20250105, none⟩

/-- Assignment of staff 2 to client 1 over [2025-01-10, 2025-01-15]. -/
def janLate : StaffAssignment :=
  ⟨11, 1, 2, some "provider", false, some 20250110, some 20250115, none⟩

/-- Store holding two non-overlapping assignments for the pair (1, 2). -/
def storeTwoAssignments : Store :=
  ⟨[clientOne], [providerUser], [janEarly, janLate], [], [], 100⟩

/-- Creation request for the pair (1, 2) over [2025-01-04, 2025-01-11],
which overlaps both stored January assignments. -/
def reqSpanningBoth : StaffAssignmentCreate :=
  ⟨1, 2, some "provider", false, some 20250104, some 20250111, none⟩

/-- Assignment of staff 2 to client 1 over [2025-03-01, 2025-03-10]
(the scenario of the specification, record id 1). -/
def marchAssignment : StaffAssignment :=
  ⟨1, 1, 2, some "provider", false, some 20250301, some 20250310, none⟩

/-- Store holding only the March assignment. -/
def storeMarch : Store :=
  ⟨[clientOne], [providerUser], [marchAssignment], [], [], 100⟩

/-- Creation request for the pair (1, 2) over [2025-03-05, 2025-03-15]. -/
def reqMarchOverlap : StaffAssignmentCreate :=
  ⟨1, 2, some "provider", false, some 20250305, some 20250315, none⟩

/-- Update request keeping the pair (1, 2) with range [2025-03-01, 2025-03-12]
(the self-update scenario of the specification). -/
def reqExtendMarch : StaffAssignmentCreate :=
  ⟨1, 2, some "provider", false, some 20250301, some 20250312, none⟩

/-- Store with resolvable references and no assignments. -/
def storeNoAssignments : Store :=
  ⟨[clientOne], [providerUser], [], [], [], 100⟩

/-- Creation request whose start date 2020-01-01 lies in the past (relative
to 2025-10-12) and whose end date 2019-12-01 precedes the start date. -/
def reqPastInverted : StaffAssignmentCreate :=
  ⟨1, 2, some "provider", false, some 20200101, some 20191201, none⟩

/-- Store whose staff user 2 has persisted role "admin" and which holds
assignment record 5 for the pair (1, 2). -/
def storeAdminStaff : Store :=
  ⟨[clientOne], [adminUser],
    [⟨5, 1, 2, some "admin", false, some 20250301, some 20250310, none⟩],
    [], [], 100⟩

/-- Update request declaring role "provider", mismatching the persisted
"admin" role of staff user 2. -/
def reqRoleProvider : StaffAssignmentCreate :=
  ⟨1, 2, some "provider", false, some 20250301, some 20250310, none⟩

/-- A scheduled appointment (id 1) between client 1 and provider 2. -/
def apptSched : Appointment :=
  ⟨1, 1, 2, ⟨202501011000, some 0⟩, ⟨202501011100, some 0⟩,
    some "individual", some "scheduled", none⟩

/-- A completed appointment (id 2) between client 1 and provider 2. -/
def apptDone : Appointment :=
  ⟨2, 1, 2, ⟨202501021000, some 0⟩, ⟨202501021100, some 0⟩,
    some "individual", some "completed", none⟩

/-- Store holding one scheduled and one completed appointment. -/
def storeAppts : Store :=
  ⟨[clientOne], [providerUser], [], [apptSched, apptDone], [], 100⟩

/-- Appointment creation request with start 2025-01-01T10:00 and end
2025-01-01T09:00 (naive), the invalid window of the specification. -/
def reqApptBad : AppointmentCreate :=
  ⟨1, 2, ⟨202501011000, none⟩, ⟨202501010900, none⟩, "individual",
    "scheduled", none⟩

/-- Appointment creation request with start 2025-01-01T09:00 and end
2025-01-01T10:00 (naive) and resolvable references. -/
def reqApptGood : AppointmentCreate :=
  ⟨1, 2, ⟨202501010900, none⟩, ⟨202501011000, none⟩, "individual",
    "scheduled", none⟩

/-- Appointment patch setting only `status`, omitting both time fields. -/
def patchStatusOnly : AppointmentUpdate :=
  ⟨none, none, none, none, none, some (some "canceled"), none⟩

/-- An appointment (id 2) of a DIFFERENT client (id 3) with provider 2. -/
def apptOtherClient : Appointment :=
  ⟨2, 3, 2, ⟨202501021000, some 0⟩, ⟨202501021100, some 0⟩,
    some "individual", some "scheduled", none⟩

/-- A progress note (id 7) for client 1 / provider 2, linked to
appointment 1, consistent with it. -/
def noteLinked : ProgressNote :=
  ⟨7, 1, 2, some 1, "initial progress", none, none, none⟩

/-- Store holding appointments 1 (client 1) and 2 (client 3) and the linked
note 7. -/
def storeNotes : Store :=
  ⟨[clientOne], [providerUser], [], [apptSched, apptOtherClient],
    [noteLinked], 100⟩

/-- Note patch relinking the note to appointment 2. -/
def patchRelink : ProgressNoteUpdate := ⟨some (some 2), none, none, none, none⟩

/-- An appointment (id 1) whose client (id 99) differs from client 1. -/
def apptForeign : Appointment :=
  ⟨1, 99, 2, ⟨202501011000, some 0⟩, ⟨202501011100, some 0⟩,
    some "individual", some "scheduled", none⟩

/-- Store holding only the foreign-client appointment. -/
def storeForeign : Store :=
  ⟨[clientOne], [providerUser], [], [apptForeign], [], 100⟩

/-- Note creation request for client 1 / provider 2 linked to
appointment 1. -/
def reqNoteLinked : ProgressNoteCreate :=
  ⟨1, 2, some 1, "session note", none, none, none⟩

/-- The empty store. -/
def storeEmpty : Store := ⟨[], [], [], [], [], 1⟩

/-- The positive-id invariant is decidable, so witnesses can evaluate it on
concrete stores. -/
instance (s : Store) : Decidable (Store.wfApptIds s) := by
  unfold Store.wfApptIds
  exact List.decidableBAll _ _

/-- C1 (amended): for a creation request whose client and staff resolve and
whose role matches, `assign_staff` returns the 409 conflict iff EXACTLY ONE
stored assignment satisfies the overlap condition for the same pair; with two
or more matching rows it instead raises `MultipleResultsFound` (an unhandled
500), and it inserts iff no row matches. -/
theorem assign_staff_overlap_char (s : Store) (r : StaffAssignmentCreate)
    (u : User)
    (hc : (findClient s r.client_id).isSome = true)
    (hu : findUser s r.staff_user_id = some u)
    (hrole : u.role = r.role) :
    ((assign_staff s r).1 = .conflict ↔
      (s.assignments.filter (fun a => overlapRow a r)).length = 1) ∧
    ((assign_staff s r).1 = .multipleResults ↔
      2 ≤ (s.assignments.filter (fun a => overlapRow a r)).length) ∧
    ((assign_staff s r).1.isCreated = true ↔
      (s.assignments.filter (fun a => overlapRow a r)).length = 0) := by
  obtain ⟨c, hc'⟩ := Option.isSome_iff_exists.mp hc
  cases hm : s.assignments.filter (fun a => overlapRow a r) with
  | nil =>
    simp [assign_staff, hc', hu, hrole, hm, scalar_one_or_none,
      AssignOutcome.isCreated]
  | cons a t =>
    cases t with
    | nil =>
      simp [assign_staff, hc', hu, hrole, hm, scalar_one_or_none,
        AssignOutcome.isCreated]
    | cons b t2 =>
      simp [assign_staff, hc', hu, hrole, hm, scalar_one_or_none,
        AssignOutcome.isCreated]

/-- C1 (counterexample): in a store holding two assignments for the pair
(1, 2) over [2025-01-01, 2025-01-05] and [2025-01-10, 2025-01-15], a request
for [2025-01-04, 2025-01-11] (references resolving, role matching) overlaps
an existing assignment, yet the outcome is NOT the conflict error — it is the
raised `MultipleResultsFound`. -/
theorem assign_staff_two_overlaps_cex :
    (findClient storeTwoAssignments reqSpanningBoth.client_id).isSome = true ∧
    (findUser storeTwoAssignments reqSpanningBoth.staff_user_id).map
      User.role = some reqSpanningBoth.role ∧
    storeTwoAssignments.assignments.any
      (fun a => overlapRow a reqSpanningBoth) = true ∧
    (assign_staff storeTwoAssignments reqSpanningBoth).1 ≠ .conflict ∧
    (assign_staff storeTwoAssignments reqSpanningBoth).1 =
      .multipleResults := by
  decide

/-- C1 (witness): the specification scenario — staff 2 assigned to client 1
over [2025-03-01, 2025-03-10], then a request for [2025-03-05, 2025-03-15]
yields the conflict error. -/
theorem assign_staff_overlap_char_witness :
    (assign_staff storeMarch reqMarchOverlap).1 = .conflict :=
  ((assign_staff_overlap_char storeMarch reqMarchOverlap providerUser
    (by decide) (by decide) (by decide)).1).mpr (by decide)

/-- C2 (code bug): the date validators of the first `StaffAssignmentCreate`
class reject a request whose start date 2020-01-01 is in the past on
2025-10-12 and whose end date precedes its start date, yet `assign_staff`
accepts exactly that request and persists the assignment, because the second
class definition of `StaffAssignmentCreate` (body `pass`) shadows the
validators. -/
theorem assign_staff_accepts_invalid_dates :
    staffAssignmentCreateValidators 20251012 reqPastInverted = false ∧
    (assign_staff storeNoAssignments reqPastInverted).1 =
      .created ⟨100, 1, 2, some "provider", false, some 20200101,
        some 20191201, none⟩ ∧
    (assign_staff storeNoAssignments reqPastInverted).2.assignments =
      [⟨100, 1, 2, some "provider", false, some 20200101, some 20191201,
        none⟩] := by
  decide

/-- C3 (counterexample): staff user 2 has persisted role "admin" while the
update request declares role "provider", yet `update_staff_assignment`
succeeds — the update path never compares the declared role with the
persisted one. -/
theorem update_assignment_role_unchecked_cex :
    (findUser storeAdminStaff reqRoleProvider.staff_user_id).map User.role =
      some (some "admin") ∧
    reqRoleProvider.role = some "provider" ∧
    (update_staff_assignment storeAdminStaff 5 reqRoleProvider).1.isUpdated =
      true := by
  decide

/-- C3 (amended): update validation checks that the assignment, the client
and the staff user exist and runs the overlap scan excluding the updated
record by id, as creation does, but performs NO role-equality check: with the
three lookups succeeding the outcome is fully determined by the self-excluded
overlap count alone, with no condition on any role. -/
theorem update_assignment_checks_char (s : Store) (aid : Int)
    (r : StaffAssignmentCreate) (asg : StaffAssignment)
    (ha : findAssignment s aid = some asg)
    (hc : (findClient s r.client_id).isSome = true)
    (hs : (findUser s r.staff_user_id).isSome = true) :
    ((update_staff_assignment s aid r).1 = .conflict ↔
      (s.assignments.filter (fun a => a.id != aid && overlapRow a r)).length
        = 1) ∧
    ((update_staff_assignment s aid r).1 = .multipleResults ↔
      2 ≤ (s.assignments.filter
        (fun a => a.id != aid && overlapRow a r)).length) ∧
    ((update_staff_assignment s aid r).1.isUpdated = true ↔
      (s.assignments.filter (fun a => a.id != aid && overlapRow a r)).length
        = 0) := by
  obtain ⟨c, hc'⟩ := Option.isSome_iff_exists.mp hc
  obtain ⟨u, hu'⟩ := Option.isSome_iff_exists.mp hs
  cases hm : s.assignments.filter (fun a => a.id != aid && overlapRow a r) with
  | nil =>
    simp [update_staff_assignment, ha, hc', hu', hm, scalar_one_or_none,
      UpdateAssignOutcome.isUpdated]
  | cons a t =>
    cases t with
    | nil =>
      simp [update_staff_assignment, ha, hc', hu', hm, scalar_one_or_none,
        UpdateAssignOutcome.isUpdated]
    | cons b t2 =>
      simp [update_staff_assignment, ha, hc', hu', hm, scalar_one_or_none,
        UpdateAssignOutcome.isUpdated]

/-- C3 (witness): the role-mismatching update of the counterexample store
succeeds, via the characterization with an overlap count of zero. -/
theorem update_assignment_checks_char_witness :
    (update_staff_assignment storeAdminStaff 5 reqRoleProvider).1.isUpdated =
      true :=
  ((update_assignment_checks_char storeAdminStaff 5 reqRoleProvider
    ⟨5, 1, 2, some "admin", false, some 20250301, some 20250310, none⟩
    (by decide) (by decide) (by decide)).2.2).mpr (by decide)

/-- C4: an update that keeps the pair of the stored record and whose range
overlaps no OTHER assignment succeeds — the overlap scan excludes the updated
record by id, so overlapping only its own previous range is not a
conflict. -/
theorem update_assignment_self_exclusion (s : Store) (aid : Int)
    (r : StaffAssignmentCreate) (asg : StaffAssignment)
    (ha : findAssignment s aid = some asg)
    (hc : (findClient s r.client_id).isSome = true)
    (hs : (findUser s r.staff_user_id).isSome = true)
    (_hpair : r.client_id = asg.client_id ∧
      r.staff_user_id = asg.staff_user_id)
    (hother : ∀ a ∈ s.assignments, a.id ≠ aid → overlapRow a r = false) :
    (update_staff_assignment s aid r).1 =
      .updated (applyAssignment asg r) := by
  obtain ⟨c, hc'⟩ := Option.isSome_iff_exists.mp hc
  obtain ⟨u, hu'⟩ := Option.isSome_iff_exists.mp hs
  have hfil : s.assignments.filter (fun a => a.id != aid && overlapRow a r)
      = [] := by
    rw [List.filter_eq_nil_iff]
    intro a hmem
    by_cases hid : a.id = aid
    · simp [hid]
    · simp [hother a hmem hid]
  simp [update_staff_assignment, ha, hc', hu', hfil, scalar_one_or_none]

/-- C4 (witness): the specification scenario — updating record 1 (pair
(1, 2), previously [2025-03-01, 2025-03-10]) to end on 2025-03-12 succeeds
even though the new range overlaps the record's own previous range. -/
theorem update_assignment_self_exclusion_witness :
    (update_staff_assignment storeMarch 1 reqExtendMarch).1 =
      .updated (applyAssignment marchAssignment reqExtendMarch) :=
  update_assignment_self_exclusion storeMarch 1 reqExtendMarch
    marchAssignment (by decide) (by decide) (by decide) (by decide)
    (by decide)

/-- C10: `assign_staff` is atomic on failure — whenever the outcome is not
the success outcome, the store after the request equals the store before it
(all checks precede the insert and the commit). -/
theorem assign_staff_atomic_on_failure (s : Store) (r : StaffAssignmentCreate)
    (h : (assign_staff s r).1.isCreated = false) :
    (assign_staff s r).2 = s := by
  cases hc : findClient s r.client_id with
  | none => simp [assign_staff, hc]
  | some c =>
    cases hu : findUser s r.staff_user_id with
    | none => simp [assign_staff, hc, hu]
    | some u =>
      by_cases hr : (u.role != r.role) = true
      · simp [assign_staff, hc, hu, hr]
      · rw [Bool.not_eq_true] at hr
        cases hm : scalar_one_or_none
            (s.assignments.filter (fun a => overlapRow a r)) with
        | error e => simp [assign_staff, hc, hu, hr, hm]
        | ok o =>
          cases o with
          | none =>
            simp [assign_staff, hc, hu, hr, hm, AssignOutcome.isCreated] at h
          | some a => simp [assign_staff, hc, hu, hr, hm]

/-- C10 (witness): a failing request (missing client on the empty store)
leaves the store unchanged. -/
theorem assign_staff_atomic_on_failure_witness :
    (assign_staff storeEmpty reqPastInverted).2 = storeEmpty :=
  assign_staff_atomic_on_failure storeEmpty reqPastInverted (by decide)

/-- Helper: `create_note` never touches the appointments table. -/
theorem create_note_appointments (s : Store) (r : ProgressNoteCreate) :
    (create_note s r).2.appointments = s.appointments := by
  unfold create_note
  repeat' split
  all_goals rfl

/-- C5 (counterexample): note 7 (client 1, provider 2) is linked to
appointment 1 consistently, but updating it with a patch that relinks it to
appointment 2 — whose client is 3 — succeeds and leaves the stored note
inconsistent with the appointment it is linked to. -/
theorem update_note_breaks_consistency_cex :
    noteApptConsistent storeNotes noteLinked = true ∧
    (update_note storeNotes 7 patchRelink).1 =
      .updated ⟨7, 1, 2, some 2, "initial progress", none, none, none⟩ ∧
    noteApptConsistent (update_note storeNotes 7 patchRelink).2
      ⟨7, 1, 2, some 2, "initial progress", none, none, none⟩ = false := by
  decide

/-- C5 (amended): note CREATION preserves the referential-consistency
invariant (for a store with positive appointment ids, every note it persists
is consistent with its linked appointment), but note UPDATE performs no
consistency check at all: on any found note, the patch — explicit null
`note_text` aside, which only fails at commit — is applied unconditionally,
so relinking via `appointment_id` can break the invariant. -/
theorem note_consistency_create_only :
    (∀ s r n, Store.wfApptIds s → (create_note s r).1 = .created n →
      noteApptConsistent (create_note s r).2 n = true) ∧
    (∀ s nid p n, findNote s nid = some n → p.note_text ≠ some none →
      (update_note s nid p).1 = .updated (applyNotePatch n p)) := by
  constructor
  · intro s r n hwf hcr
    have happts := create_note_appointments s r
    cases hc : findClient s r.client_id with
    | none => simp [create_note, hc] at hcr
    | some c =>
      cases hp : findUser s r.provider_id with
      | none => simp [create_note, hc, hp] at hcr
      | some u =>
        by_cases ht : pyTruthy r.appointment_id = true
        · obtain ⟨aid, haid, haid0⟩ :
              ∃ aid, r.appointment_id = some aid ∧ aid ≠ 0 := by
            cases hA : r.appointment_id with
            | none => rw [hA] at ht; simp [pyTruthy] at ht
            | some k =>
              refine ⟨k, rfl, ?_⟩
              rw [hA] at ht; simpa [pyTruthy] using ht
          cases hap : findAppointment s (r.appointment_id.getD 0) with
          | none => simp [create_note, hc, hp, ht, hap] at hcr
          | some ap =>
            have hap' : List.find? (fun a => a.id == aid) s.appointments
                = some ap := by
              rw [haid] at hap
              simpa [findAppointment] using hap
            by_cases hcm : (ap.client_id != r.client_id) = true
            · simp [create_note, hc, hp, ht, hap, hcm] at hcr
            · rw [Bool.not_eq_true] at hcm
              by_cases hpm : (ap.provider_id != r.provider_id) = true
              · simp [create_note, hc, hp, ht, hap, hcm, hpm] at hcr
              · rw [Bool.not_eq_true] at hpm
                have hcm' : ap.client_id = r.client_id := by simpa using hcm
                have hpm' : ap.provider_id = r.provider_id := by
                  simpa using hpm
                simp [create_note, hc, hp, ht, hap, hcm, hpm] at hcr
                subst hcr
                simp [noteApptConsistent, haid, findAppointment, happts,
                  hap', hcm', hpm']
        · rw [Bool.not_eq_true] at ht
          simp [create_note, hc, hp, ht] at hcr
          subst hcr
          cases hA : r.appointment_id with
          | none =>
            simp [noteApptConsistent, hA]
          | some k =>
            have hk : k = 0 := by
              rw [hA] at ht; simpa [pyTruthy] using ht
            subst hk
            have hfind : s.appointments.find? (fun a => a.id == 0)
                = none := by
              rw [List.find?_eq_none]
              intro a hmem
              have := hwf a hmem
              simp
              omega
            simp [noteApptConsistent, hA, findAppointment, happts, hfind]
  · intro s nid p n h1 h2
    have hb : (p.note_text == some none) = false := by simpa using h2
    simp [update_note, h1, hb]

/-- C5 (witness): creating a consistently linked note yields a note that
satisfies the invariant, and the relinking patch of the counterexample is
applied unconditionally by `update_note`. -/
theorem note_consistency_create_only_witness :
    noteApptConsistent (create_note storeNotes reqNoteLinked).2
      ⟨100, 1, 2, some 1, "session note", none, none, none⟩ = true ∧
    (update_note storeNotes 7 patchRelink).1 =
      .updated (applyNotePatch noteLinked patchRelink) :=
  ⟨note_consistency_create_only.1 storeNotes reqNoteLinked
      ⟨100, 1, 2, some 1, "session note", none, none, none⟩
      (by decide) (by decide),
   note_consistency_create_only.2 storeNotes 7 patchRelink noteLinked
      (by decide) (by decide)⟩

/-- C6: creating a note linked to an existing appointment (client and
provider resolving, positive stored appointment ids) fails with the
inconsistent-link error iff the appointment's client or provider differs
from the note's, and on such a failure the store is unchanged — no note is
persisted. -/
theorem create_note_mismatch_iff (s : Store) (r : ProgressNoteCreate)
    (aid : Int) (ap : Appointment)
    (hwf : Store.wfApptIds s)
    (hc : (findClient s r.client_id).isSome = true)
    (hp : (findUser s r.provider_id).isSome = true)
    (hA : r.appointment_id = some aid)
    (hap : findAppointment s aid = some ap) :
    ((create_note s r).1.isInconsistentLink = true ↔
      (ap.client_id ≠ r.client_id ∨ ap.provider_id ≠ r.provider_id)) ∧
    ((create_note s r).1.isInconsistentLink = true →
      (create_note s r).2 = s) := by
  obtain ⟨c, hc'⟩ := Option.isSome_iff_exists.mp hc
  obtain ⟨u, hp'⟩ := Option.isSome_iff_exists.mp hp
  have hap' : s.appointments.find? (fun a => a.id == aid) = some ap := hap
  have haid0 : aid ≠ 0 := by
    have h1 := hwf ap (List.mem_of_find?_eq_some hap')
    have h2 : ap.id = aid := by simpa using List.find?_some hap'
    omega
  have ht : pyTruthy r.appointment_id = true := by
    simp [pyTruthy, hA, haid0]
  by_cases hcm : (ap.client_id != r.client_id) = true
  · have hout : (create_note s r).1 = .clientMismatch := by
      simp [create_note, hc', hp', ht, hA, hap, hcm, pyTruthy, haid0]
    have hstore : (create_note s r).2 = s := by
      simp [create_note, hc', hp', ht, hA, hap, hcm, pyTruthy, haid0]
    refine ⟨iff_of_true (by rw [hout]; rfl)
      (Or.inl (bne_iff_ne.mp hcm)), fun _ => hstore⟩
  · rw [Bool.not_eq_true] at hcm
    have hcmeq : ap.client_id = r.client_id := by simpa using hcm
    by_cases hpm : (ap.provider_id != r.provider_id) = true
    · have hout : (create_note s r).1 = .providerMismatch := by
        simp [create_note, hc', hp', ht, hA, hap, hcm, hpm, pyTruthy, haid0]
      have hstore : (create_note s r).2 = s := by
        simp [create_note, hc', hp', ht, hA, hap, hcm, hpm, pyTruthy, haid0]
      refine ⟨iff_of_true (by rw [hout]; rfl)
        (Or.inr (bne_iff_ne.mp hpm)), fun _ => hstore⟩
    · rw [Bool.not_eq_true] at hpm
      have hpmeq : ap.provider_id = r.provider_id := by simpa using hpm
      have hout : (create_note s r).1.isInconsistentLink = false := by
        simp [create_note, hc', hp', ht, hA, hap, hcm, hpm, pyTruthy,
          haid0, CreateNoteOutcome.isInconsistentLink]
      refine ⟨iff_of_false (by simp [hout]) ?_, ?_⟩
      · rintro (h | h)
        · exact h hcmeq
        · exact h hpmeq
      · intro habs
        simp [hout] at habs

/-- C6 (witness): the specification scenario — a note for client 1 linked to
an appointment whose client is 99 fails with the inconsistent-link error. -/
theorem create_note_mismatch_iff_witness :
    (create_note storeForeign reqNoteLinked).1.isInconsistentLink = true :=
  ((create_note_mismatch_iff storeForeign reqNoteLinked 1 apptForeign
    (by decide) (by decide) (by decide) (by decide) (by decide)).1).mpr
    (Or.inl (by decide))

/-- C7: `create_appointment` fails with the invalid-range error exactly when
(after UTC-normalising naive inputs) start_time >= end_time, and every
request with start_time strictly before end_time and resolvable client and
provider references is accepted. -/
theorem create_appointment_window (s : Store) (r : AppointmentCreate) :
    ((create_appointment s r).1 = .invalidRange ↔
      instant (withUtcIfNaive r.end_time) ≤
        instant (withUtcIfNaive r.start_time)) ∧
    (instant (withUtcIfNaive r.start_time) <
        instant (withUtcIfNaive r.end_time) →
      (findClient s r.client_id).isSome = true →
      (findUser s r.provider_id).isSome = true →
      (create_appointment s r).1.isCreated = true) := by
  constructor
  · by_cases h : instant (withUtcIfNaive r.end_time) ≤
        instant (withUtcIfNaive r.start_time)
    · simp [create_appointment, h]
    · cases hc : findClient s r.client_id with
      | none => simp [create_appointment, h, hc]
      | some c =>
        cases hu : findUser s r.provider_id with
        | none => simp [create_appointment, h, hc, hu]
        | some u => simp [create_appointment, h, hc, hu]
  · intro hlt hc hu
    obtain ⟨c, hc'⟩ := Option.isSome_iff_exists.mp hc
    obtain ⟨u, hu'⟩ := Option.isSome_iff_exists.mp hu
    have h : ¬ instant (withUtcIfNaive r.end_time) ≤
        instant (withUtcIfNaive r.start_time) := not_le.mpr hlt
    simp [create_appointment, h, hc', hu', CreateApptOutcome.isCreated]

/-- C7 (witness): start 2025-01-01T10:00 / end 2025-01-01T09:00 is rejected
as an invalid range; the reversed window with resolvable references is
accepted. -/
theorem create_appointment_window_witness :
    (create_appointment storeNoAssignments reqApptBad).1 = .invalidRange ∧
    (create_appointment storeNoAssignments reqApptGood).1.isCreated = true :=
  ⟨(create_appointment_window storeNoAssignments reqApptBad).1.mpr
      (by decide),
   (create_appointment_window storeNoAssignments reqApptGood).2 (by decide)
      (by decide) (by decide)⟩

/-- C8: for an existing appointment, deletion is blocked exactly when its
status is "completed" (leaving the store unchanged), while any other status
is deleted and removed from the store. -/
theorem delete_appointment_completed_guard (s : Store) (aid : Int)
    (ap : Appointment) (h : findAppointment s aid = some ap) :
    ((delete_appointment s aid).1 = .completedBlocked ↔
      ap.status = some "completed") ∧
    ((delete_appointment s aid).1 = .completedBlocked →
      (delete_appointment s aid).2 = s) ∧
    (ap.status ≠ some "completed" →
      (delete_appointment s aid).1 = .deleted ∧
      (delete_appointment s aid).2 =
        { s with
          appointments := s.appointments.filter (fun a => !(a.id == aid)) })
    := by
  by_cases hs : ap.status = some "completed"
  · simp [delete_appointment, h, hs]
  · have hb : (ap.status == some "completed") = false := by simpa using hs
    simp [delete_appointment, h, hb, hs]

/-- C8 (witness): deleting completed appointment 2 is rejected while deleting
scheduled appointment 1 succeeds. -/
theorem delete_appointment_completed_guard_witness :
    (delete_appointment storeAppts 2).1 = .completedBlocked ∧
    (delete_appointment storeAppts 1).1 = .deleted :=
  ⟨(delete_appointment_completed_guard storeAppts 2 apptDone
      (by decide)).1.mpr (by decide),
   ((delete_appointment_completed_guard storeAppts 1 apptSched
      (by decide)).2.2 (by decide)).1⟩

/-- C9: an update patch that sets at least one field but omits start_time or
end_time makes `update_appointment` raise (the unconditional
`start_time >= end_time` comparison hits a missing value) before any field is
written, leaving the stored appointment unchanged — a partial update can only
succeed when both times are supplied. -/
theorem update_appointment_requires_both_times (s : Store) (aid : Int)
    (p : AppointmentUpdate) (ap : Appointment)
    (h : findAppointment s aid = some ap)
    (hset : p.hasSetField = true)
    (hmiss : p.start_time = none ∨ p.end_time = none) :
    (update_appointment s aid p).1 = .raisedTypeError ∧
    (update_appointment s aid p).2 = s := by
  have hge : pyGeDT (patchVal p.start_time) (patchVal p.end_time) = none := by
    rcases hmiss with hm | hm
    · simp [patchVal, hm, pyGeDT]
    · cases hx : patchVal p.start_time with
      | none => simp [patchVal, hm, pyGeDT]
      | some x => simp [patchVal, hm, pyGeDT, hx]
  simp [update_appointment, h, hset, hge]

/-- C9 (witness): patching only the status of scheduled appointment 1 raises
and leaves the store unchanged. -/
theorem update_appointment_requires_both_times_witness :
    (update_appointment storeAppts 1 patchStatusOnly).1 = .raisedTypeError ∧
    (update_appointment storeAppts 1 patchStatusOnly).2 = storeAppts :=
  update_appointment_requires_both_times storeAppts 1 patchStatusOnly
    apptSched (by decide) (by decide) (Or.inl rfl)
